import Mathlib

/-!
Verification of the proj-geom library: a shallow embedding of
`src/proj_geom/pg_common.py` and `src/proj_geom/pg_plane.py`.

The projective-plane abstraction (class `ProjectivePlane` in
`pg_plane.py`) is a generic contract over a dual pair of roles (Point
and Line) sharing a scalar Measure type.  We embed a conforming
implementation as a structure `PPlane P L M` bundling every abstract
operation in both role directions; the generic free functions of the
module are then Lean functions over an arbitrary `PPlane`.  Python
`assert` failures are modelled by an `Option` result (`none` means the
assertion raised), and Python exceptions in `pg_common.py` by an
`Except PyError` result.
-/

/-- Errors raised by the functions of `pg_common.py`: `ValueError` with
its message text, and `IndexError` from out-of-bounds list indexing. -/
inductive PyError where
  | valueError (msg : String) : PyError
  | indexError : PyError
  deriving DecidableEq, Repr

/-- Python indexing `xs[i]` on a list: the element when `i` is in
bounds, an `IndexError` otherwise. -/
def pyGet (xs : List Int) (i : Nat) : Except PyError Int :=
  match xs.get? i with
  | some v => Except.ok v
  | none => Except.error PyError.indexError

/-- Embedding of `dot_product` (`pg_common.py` lines 7-21): raises
`ValueError` on a length mismatch, otherwise returns
`sum(vector1[i] * vector2[i] for i in range(len(vector1)))`. -/
def dot_product (vector1 vector2 : List Int) : Except PyError Int :=
  if vector1.length ≠ vector2.length then
    Except.error (PyError.valueError "Vectors must be the same length")
  else
    Except.ok (((List.range vector1.length).map
      (fun i => vector1.getD i 0 * vector2.getD i 0)).sum)

/-- Embedding of `cross_product` (`pg_common.py` lines 25-49): raises
`ValueError` on a length mismatch, then raises `ValueError` when the
common length is not 3, otherwise returns the standard 3D cross
product. -/
def cross_product (vector1 vector2 : List Int) : Except PyError (List Int) :=
  if vector1.length ≠ vector2.length then
    Except.error (PyError.valueError "Vectors must be the same length")
  else if vector1.length ≠ 3 then
    Except.error (PyError.valueError "Vectors must be 3D")
  else
    Except.ok
      [ vector1.getD 1 0 * vector2.getD 2 0 - vector1.getD 2 0 * vector2.getD 1 0,
        vector1.getD 2 0 * vector2.getD 0 0 - vector1.getD 0 0 * vector2.getD 2 0,
        vector1.getD 0 0 * vector2.getD 1 0 - vector1.getD 1 0 * vector2.getD 0 0 ]

/-- Embedding of `parametric_line_equation` (`pg_common.py` lines
52-66): raises `ValueError` on a length mismatch, otherwise builds the
string from `point2[0]`, `point2[1]`, `point2[2]` (each index may raise
`IndexError`). -/
def parametric_line_equation (point1 point2 : List Int) : Except PyError String :=
  if point1.length ≠ point2.length then
    Except.error (PyError.valueError "Points must be the same length")
  else do
    let x ← pyGet point2 0
    let y ← pyGet point2 1
    let z ← pyGet point2 2
    Except.ok ("x = " ++ toString x ++ ", y = " ++ toString y ++ ", z = " ++ toString z)

/-- A conforming implementation of the `ProjectivePlane` contract of
`pg_plane.py`: a dual pair of roles `P` (points) and `L` (lines) over a
Measure type `M`.  Each abstract method of the Python class appears
twice, once per role direction (`circP : P → P → L` is the join of two
points, `circL : L → L → P` the meet of two lines, and so on); the
abstract `__eq__` of each role is `beqP` and `beqL`, and the
(overridable) `incident` test is `incidentP` and `incidentL`. -/
structure PPlane (P L M : Type) where
  beqP : P → P → Bool
  beqL : L → L → Bool
  circP : P → P → L
  circL : L → L → P
  auxP : P → L
  auxL : L → P
  dotP : P → L → M
  dotL : L → P → M
  pluckerP : P → M → P → M → P
  pluckerL : L → M → L → M → L
  incidentP : P → L → Bool
  incidentL : L → P → Bool

/-- Swapping the two roles of a conforming implementation gives a
conforming implementation: this is how the generic Python functions,
written once, also apply to the dual role (e.g. `persp` on triangles of
lines inside `check_desargue`). -/
def PPlane.dualize {P L M : Type} (pp : PPlane P L M) : PPlane L P M where
  beqP := pp.beqL
  beqL := pp.beqP
  circP := pp.circL
  circL := pp.circP
  auxP := pp.auxL
  auxL := pp.auxP
  dotP := pp.dotL
  dotL := pp.dotP
  pluckerP := pp.pluckerL
  pluckerL := pp.pluckerP
  incidentP := pp.incidentL
  incidentL := pp.incidentP

/-- Embedding of the free function `coincident` (`pg_plane.py` lines
140-158): `pt_p.circ(pt_q).incident(pt_r)`. -/
def coincident {P L M : Type} (pp : PPlane P L M) (pt_p pt_q pt_r : P) : Bool :=
  pp.incidentL (pp.circP pt_p pt_q) pt_r

/-- Embedding of the member `ProjectivePlane.coincident` (`pg_plane.py`
lines 82-92): `self.circ(pt_q).incident(pt_r)`. -/
def memberCoincident {P L M : Type} (pp : PPlane P L M) (self pt_q pt_r : P) : Bool :=
  pp.incidentL (pp.circP self pt_q) pt_r

/-- Embedding of the free function `harm_conj` (`pg_plane.py` lines
257-273).  The Python `assert coincident(pt_a, pt_b, pt_c)` is
modelled by returning `none` when the assertion fails; otherwise the
result is `pt_a.plucker(lc.dot(pt_b), pt_b, lc.dot(pt_a))` with
`ab = pt_a.circ(pt_b)` and `lc = ab.aux().circ(pt_c)`. -/
def harm_conj {P L M : Type} (pp : PPlane P L M) (pt_a pt_b pt_c : P) : Option P :=
  if coincident pp pt_a pt_b pt_c then
    let ab := pp.circP pt_a pt_b
    let lc := pp.circP (pp.auxL ab) pt_c
    some (pp.pluckerP pt_a (pp.dotL lc pt_b) pt_b (pp.dotL lc pt_a))
  else
    none

/-- Embedding of the member `ProjectivePlane.harm_conj` (`pg_plane.py`
lines 94-107): asserts `self.coincident(pt_a, pt_b)` and returns
`pt_a.plucker(line_l.dot(pt_b), pt_b, line_l.dot(pt_a))` with
`line_ab = pt_a.circ(pt_b)` and `line_l = line_ab.aux().circ(self)`. -/
def memberHarmConj {P L M : Type} (pp : PPlane P L M) (self pt_a pt_b : P) : Option P :=
  if memberCoincident pp self pt_a pt_b then
    let line_ab := pp.circP pt_a pt_b
    let line_l := pp.circP (pp.auxL line_ab) self
    some (pp.pluckerP pt_a (pp.dotL line_l pt_b) pt_b (pp.dotL line_l pt_a))
  else
    none

/-- Embedding of check_axiom (`pg_plane.py` lines 121-137): a chain
of five assertions, each modelled as a guard; the function returns
`some ()` (normal return, no boolean) exactly when every assertion
holds and `none` (assertion raised) otherwise. -/
def check_axiom {P L M : Type} (pp : PPlane P L M) (pt_p pt_q : P) (line_l : L) :
    Option Unit :=
  if pp.beqP pt_p pt_p then
    if (pp.beqP pt_p pt_q) == (pp.beqP pt_q pt_p) then
      if (pp.incidentP pt_p line_l) == (pp.incidentL line_l pt_p) then
        if pp.beqL (pp.circP pt_p pt_q) (pp.circP pt_q pt_p) then
          if pp.incidentL (pp.circP pt_p pt_q) pt_p
              && pp.incidentL (pp.circP pt_p pt_q) pt_q then
            some ()
          else none
        else none
      else none
    else none
  else none

/-- Embedding of `tri_dual` (`pg_plane.py` lines 186-198): asserts
`not coincident(a_1, a_2, a_3)` (modelled by `none` on failure) and
returns `[a_2.circ(a_3), a_1.circ(a_3), a_1.circ(a_2)]`. -/
def tri_dual {P L M : Type} (pp : PPlane P L M) (tri : P × P × P) :
    Option (L × L × L) :=
  if coincident pp tri.1 tri.2.1 tri.2.2 then
    none
  else
    some (pp.circP tri.2.1 tri.2.2, pp.circP tri.1 tri.2.2, pp.circP tri.1 tri.2.1)

/-- Embedding of `persp` (`pg_plane.py` lines 201-221):
`pt_o = pt_a.circ(pt_d).circ(pt_b.circ(pt_e))` and the result is
`pt_c.circ(pt_f).incident(pt_o)`. -/
def persp {P L M : Type} (pp : PPlane P L M) (tri1 tri2 : P × P × P) : Bool :=
  let pt_o := pp.circL (pp.circP tri1.1 tri2.1) (pp.circP tri1.2.1 tri2.2.1)
  pp.incidentL (pp.circP tri1.2.2 tri2.2.2) pt_o

/-- Embedding of `check_desargue` (`pg_plane.py` lines 224-246):
computes the dual triangles (each of which may raise inside
`tri_dual`), then `bool1 = persp(tri1, tri2)`,
`bool2 = persp(trid1, trid2)` and returns
`(bool1 and bool2) or (not bool1 and not bool2)`. -/
def check_desargue {P L M : Type} (pp : PPlane P L M) (tri1 tri2 : P × P × P) :
    Option Bool := do
  let trid1 ← tri_dual pp tri1
  let trid2 ← tri_dual pp tri2
  let bool1 := persp pp tri1 tri2
  let bool2 := persp pp.dualize trid1 trid2
  some ((bool1 && bool2) || (!bool1 && !bool2))

/-- Embedding of `check_pappus` (`pg_plane.py` lines 161-183). -/
def check_pappus {P L M : Type} (pp : PPlane P L M) (co1 co2 : P × P × P) : Bool :=
  let pt_g := pp.circL (pp.circP co1.1 co2.2.1) (pp.circP co1.2.1 co2.1)
  let pt_h := pp.circL (pp.circP co1.1 co2.2.2) (pp.circP co1.2.2 co2.1)
  let pt_i := pp.circL (pp.circP co1.2.1 co2.2.2) (pp.circP co1.2.2 co2.2.1)
  coincident pp pt_g pt_h pt_i

/-!
Concrete models.  The repository itself fixes no concrete point/line
representation; its documentation and examples refer to homogeneous
coordinate fixtures (`PgPoint`/`PgLine`).
-/

/-- Homogeneous coordinate triple over the integers. -/
abbrev V3 := Int × Int × Int

/-- Cross product of two coordinate triples. -/
def cross3 (a b : V3) : V3 :=
  (a.2.1 * b.2.2 - a.2.2 * b.2.1,
   a.2.2 * b.1 - a.1 * b.2.2,
   a.1 * b.2.1 - a.2.1 * b.1)

/-- Dot product of two coordinate triples. -/
def dot3 (a b : V3) : Int :=
  a.1 * b.1 + a.2.1 * b.2.1 + a.2.2 * b.2.2

/-- Scalar multiple of a coordinate triple. -/
def smul3 (k : Int) (a : V3) : V3 :=
  (k * a.1, k * a.2.1, k * a.2.2)

/-- Componentwise sum of two coordinate triples. -/
def add3 (a b : V3) : V3 :=
  (a.1 + b.1, a.2.1 + b.2.1, a.2.2 + b.2.2)

/-- Modelled from the spec: the repository contains no concrete
point/line classes (the `PgPoint`/`PgLine` fixtures appear only in its
doctests), so this is the homogeneous-coordinate realization the
design notes describe: join and meet are the cross product, `dot` is
the dot product, `aux` reuses the coordinates of the given value in
the dual role, `plucker` is the weighted linear combination
`lambda * p + mu * q`, equality is projective (zero cross product) and
incidence is a zero dot product. -/
def pgPlane : PPlane V3 V3 Int where
  beqP := fun a b => decide (cross3 a b = ((0 : Int), (0 : Int), (0 : Int)))
  beqL := fun a b => decide (cross3 a b = ((0 : Int), (0 : Int), (0 : Int)))
  circP := cross3
  circL := cross3
  auxP := id
  auxL := id
  dotP := dot3
  dotL := dot3
  pluckerP := fun p lam q mu => add3 (smul3 lam p) (smul3 mu q)
  pluckerL := fun p lam q mu => add3 (smul3 lam p) (smul3 mu q)
  incidentP := fun p l => decide (dot3 p l = 0)
  incidentL := fun l p => decide (dot3 l p = 0)

/-- A degenerate conforming implementation: one point, one line role
(both `Bool`), structural equality, constant join and meet, `aux`
returning the other value (hence distinct from its argument), zero
measure throughout and everything incident.  All operations of the
contract are implemented and every law the specification states (and
everything check_axiom tests) holds, see trivPlane_check_axiom. -/
def trivPlane : PPlane Bool Bool Nat where
  beqP := fun a b => a == b
  beqL := fun a b => a == b
  circP := fun _ _ => true
  circL := fun _ _ => true
  auxP := fun b => !b
  auxL := fun b => !b
  dotP := fun _ _ => 0
  dotL := fun _ _ => 0
  pluckerP := fun _ _ _ _ => false
  pluckerL := fun _ _ _ _ => false
  incidentP := fun _ _ => true
  incidentL := fun _ _ => true

/-- The degenerate implementation `trivPlane` passes every assertion
of check_axiom on every input triple, and its `incident` agrees with
the default `dot == 0` body: it conforms to everything the contract
demands. -/
theorem trivPlane_check_axiom :
    ∀ p q l : Bool, check_axiom trivPlane p q l = some () ∧
      trivPlane.incidentP p l = decide (trivPlane.dotP p l = 0) := by
  decide

/-!
Claims about the vector-algebra utilities of `pg_common.py`.
-/

/-- The range-indexed sum computed by `dot_product` is the sum of
elementwise products over the shared length. -/
theorem dotSum_eq_zipWith (v1 v2 : List Int) (h : v1.length = v2.length) :
    ((List.range v1.length).map (fun i => v1.getD i 0 * v2.getD i 0)).sum =
      (List.zipWith (fun a b => a * b) v1 v2).sum := by
  induction v1 generalizing v2 with
  | nil => simp
  | cons a t1 ih =>
    cases v2 with
    | nil => simp at h
    | cons b t2 =>
      have h2 : t1.length = t2.length := by simpa using h
      calc ((List.range (a :: t1).length).map
              (fun i => (a :: t1).getD i 0 * (b :: t2).getD i 0)).sum
          = a * b + ((List.range t1.length).map
              (fun i => t1.getD i 0 * t2.getD i 0)).sum := by
            simp [List.range_succ_eq_map, List.map_map, Function.comp_def]
        _ = a * b + (List.zipWith (fun x y => x * y) t1 t2).sum := by rw [ih t2 h2]
        _ = (List.zipWith (fun x y => x * y) (a :: t1) (b :: t2)).sum := by simp

/-- C9: for equal-length vectors `dot_product` returns the sum of the
elementwise products over the shared length, and for different-length
vectors it fails with the `ValueError` carrying the message
"Vectors must be the same length"; it raises exactly in the
mismatched-length case. -/
theorem C9_dot_product (v1 v2 : List Int) :
    (v1.length = v2.length →
      dot_product v1 v2 = Except.ok ((List.zipWith (fun a b => a * b) v1 v2).sum)) ∧
    (v1.length ≠ v2.length →
      dot_product v1 v2 =
        Except.error (PyError.valueError "Vectors must be the same length")) := by
  constructor
  · intro h
    unfold dot_product
    rw [if_neg (not_ne_iff.mpr h)]
    exact congrArg Except.ok (dotSum_eq_zipWith v1 v2 h)
  · intro h
    simp [dot_product, h]

/-- Witness for C9: `dot_product [1,2,3] [4,5,6] = 32` and a
mismatched pair raises the length error. -/
theorem C9_dot_product_witness :
    dot_product [1, 2, 3] [4, 5, 6] = Except.ok 32 ∧
    dot_product [1, 2, 3] [4, 5, 6, 7] =
      Except.error (PyError.valueError "Vectors must be the same length") := by
  constructor
  · rw [(C9_dot_product [1, 2, 3] [4, 5, 6]).1 (by decide)]
    rfl
  · exact (C9_dot_product [1, 2, 3] [4, 5, 6, 7]).2 (by decide)

/-- C8: `cross_product` raises the length-mismatch `ValueError` first,
whenever the lengths differ (regardless of whether either length is
3), and for equal lengths different from 3 it raises the
dimensionality `ValueError` of the same error kind. -/
theorem C8_cross_product (v1 v2 : List Int) :
    (v1.length ≠ v2.length →
      cross_product v1 v2 =
        Except.error (PyError.valueError "Vectors must be the same length")) ∧
    (v1.length = v2.length → v1.length ≠ 3 →
      cross_product v1 v2 = Except.error (PyError.valueError "Vectors must be 3D")) := by
  constructor
  · intro h
    simp [cross_product, h]
  · intro h h3
    unfold cross_product
    rw [if_neg (not_ne_iff.mpr h), if_pos h3]

/-- Witness for C8: a mismatched pair with neither length 3 raises the
length error, and an equal-length non-3D pair raises the 3D error. -/
theorem C8_cross_product_witness :
    cross_product [1, 2, 3, 4] [5, 6] =
      Except.error (PyError.valueError "Vectors must be the same length") ∧
    cross_product [1, 2] [3, 4] =
      Except.error (PyError.valueError "Vectors must be 3D") := by
  constructor
  · exact (C8_cross_product [1, 2, 3, 4] [5, 6]).1 (by decide)
  · exact (C8_cross_product [1, 2] [3, 4]).2 (by decide) (by decide)

/-- C7: for equal-length points with at least three components,
`parametric_line_equation` returns the string built only from the
second point's first three components (so the result does not depend
on the first point's values), and for different-length points it fails
with the `ValueError` carrying "Points must be the same length". -/
theorem C7_parametric_line_equation (point1 point2 : List Int) :
    (point1.length = point2.length → 3 ≤ point2.length →
      parametric_line_equation point1 point2 =
        Except.ok ("x = " ++ toString (point2.getD 0 0) ++ ", y = " ++
          toString (point2.getD 1 0) ++ ", z = " ++ toString (point2.getD 2 0))) ∧
    (point1.length ≠ point2.length →
      parametric_line_equation point1 point2 =
        Except.error (PyError.valueError "Points must be the same length")) := by
  constructor
  · intro h h3
    match point2, h, h3 with
    | x :: y :: z :: rest, h, _ =>
      unfold parametric_line_equation
      rw [if_neg (not_ne_iff.mpr h)]
      rfl
  · intro h
    simp [parametric_line_equation, h]

/-- Witness for C7: the documented example, and a mismatched pair. -/
theorem C7_parametric_line_equation_witness :
    parametric_line_equation [1, 2, 3] [4, 5, 6] = Except.ok "x = 4, y = 5, z = 6" ∧
    parametric_line_equation [1, 2, 3] [4, 5, 6, 7] =
      Except.error (PyError.valueError "Points must be the same length") := by
  constructor
  · rw [(C7_parametric_line_equation [1, 2, 3] [4, 5, 6]).1 (by decide) (by decide)]
    rfl
  · exact (C7_parametric_line_equation [1, 2, 3] [4, 5, 6, 7]).2 (by decide)

/-- C10: for equal-length points with fewer than three components,
`parametric_line_equation` passes its only guard and then fails with
an out-of-bounds `IndexError` (not the `ValueError`): there is no
check that the points have at least three components. -/
theorem C10_parametric_line_equation_short (point1 point2 : List Int)
    (h : point1.length = point2.length) (h3 : point2.length < 3) :
    parametric_line_equation point1 point2 = Except.error PyError.indexError := by
  match point2, h, h3 with
  | [], h, _ =>
    unfold parametric_line_equation
    rw [if_neg (not_ne_iff.mpr h)]
    rfl
  | [x], h, _ =>
    unfold parametric_line_equation
    rw [if_neg (not_ne_iff.mpr h)]
    rfl
  | [x, y], h, _ =>
    unfold parametric_line_equation
    rw [if_neg (not_ne_iff.mpr h)]
    rfl

/-- Witness for C10: two 2-element points produce the indexing error. -/
theorem C10_parametric_line_equation_short_witness :
    parametric_line_equation [1, 2] [3, 4] = Except.error PyError.indexError :=
  C10_parametric_line_equation_short [1, 2] [3, 4] (by decide) (by decide)

/-!
Claims about the generic theorem library of `pg_plane.py`.
-/

/-- C1: the free function `harm_conj` first asserts that the three
points are coincident (raising, i.e. `none`, otherwise), and when the
precondition holds it returns exactly
`pt_a.plucker(line_l.dot(pt_b), pt_b, line_l.dot(pt_a))` where
`line_ab = pt_a.circ(pt_b)` and `line_l = line_ab.aux().circ(pt_c)`. -/
theorem C1_harm_conj {P L M : Type} (pp : PPlane P L M) (pt_a pt_b pt_c : P) :
    (coincident pp pt_a pt_b pt_c = true →
      harm_conj pp pt_a pt_b pt_c =
        some (pp.pluckerP pt_a
          (pp.dotL (pp.circP (pp.auxL (pp.circP pt_a pt_b)) pt_c) pt_b) pt_b
          (pp.dotL (pp.circP (pp.auxL (pp.circP pt_a pt_b)) pt_c) pt_a))) ∧
    (coincident pp pt_a pt_b pt_c = false →
      harm_conj pp pt_a pt_b pt_c = none) := by
  constructor
  · intro h
    simp [harm_conj, h]
  · intro h
    simp [harm_conj, h]

/-- Witness for C1 in the homogeneous-coordinate model: a coincident
triple produces the Plucker combination, a non-coincident triple
raises. -/
theorem C1_harm_conj_witness :
    harm_conj pgPlane ((1 : Int), 0, 0) ((0 : Int), 1, 0) ((1 : Int), 1, 0) =
      some ((1 : Int), -1, 0) ∧
    harm_conj pgPlane ((1 : Int), 0, 0) ((0 : Int), 1, 0) ((0 : Int), 0, 1) = none := by
  constructor
  · rw [(C1_harm_conj pgPlane ((1 : Int), 0, 0) ((0 : Int), 1, 0) ((1 : Int), 1, 0)).1
      (by decide)]
    rfl
  · exact (C1_harm_conj pgPlane ((1 : Int), 0, 0) ((0 : Int), 1, 0)
      ((0 : Int), 0, 1)).2 (by decide)

/-- C4: `tri_dual` asserts that the three vertices are not coincident
(raising, i.e. `none`, when they are), and when the precondition holds
it returns exactly `[a2.circ(a3), a1.circ(a3), a1.circ(a2)]` in this
order. -/
theorem C4_tri_dual {P L M : Type} (pp : PPlane P L M) (a1 a2 a3 : P) :
    (coincident pp a1 a2 a3 = false →
      tri_dual pp (a1, a2, a3) =
        some (pp.circP a2 a3, pp.circP a1 a3, pp.circP a1 a2)) ∧
    (coincident pp a1 a2 a3 = true → tri_dual pp (a1, a2, a3) = none) := by
  constructor
  · intro h
    simp [tri_dual, h]
  · intro h
    simp [tri_dual, h]

/-- Witness for C4 in the homogeneous-coordinate model: the doctest
triangle yields its dual triangle in the stated order, and a collinear
triple raises. -/
theorem C4_tri_dual_witness :
    tri_dual pgPlane (((0 : Int), 1, 0), ((0 : Int), 0, 1), ((1 : Int), 0, 0)) =
      some (((0 : Int), 1, 0), ((0 : Int), 0, -1), ((1 : Int), 0, 0)) ∧
    tri_dual pgPlane (((1 : Int), 0, 0), ((0 : Int), 1, 0), ((1 : Int), 1, 0)) = none := by
  constructor
  · rw [(C4_tri_dual pgPlane ((0 : Int), 1, 0) ((0 : Int), 0, 1) ((1 : Int), 0, 0)).1
      (by decide)]
    rfl
  · exact (C4_tri_dual pgPlane ((1 : Int), 0, 0) ((0 : Int), 1, 0)
      ((1 : Int), 1, 0)).2 (by decide)

/-- C5: when both the member precondition `pt_c.coincident(pt_a, pt_b)`
and the free-function precondition `coincident(pt_a, pt_b, pt_c)`
hold, `pt_c.harm_conj(pt_a, pt_b)` and `harm_conj(pt_a, pt_b, pt_c)`
return the same value (and both do return a value): the free
function's third argument plays the role of the member's `self`. -/
theorem C5_harm_conj_member_free {P L M : Type} (pp : PPlane P L M) (pt_a pt_b pt_c : P)
    (hm : memberCoincident pp pt_c pt_a pt_b = true)
    (hf : coincident pp pt_a pt_b pt_c = true) :
    memberHarmConj pp pt_c pt_a pt_b = harm_conj pp pt_a pt_b pt_c ∧
    ∃ v, memberHarmConj pp pt_c pt_a pt_b = some v := by
  constructor
  · simp [memberHarmConj, harm_conj, hm, hf]
  · refine ⟨pp.pluckerP pt_a
      (pp.dotL (pp.circP (pp.auxL (pp.circP pt_a pt_b)) pt_c) pt_b) pt_b
      (pp.dotL (pp.circP (pp.auxL (pp.circP pt_a pt_b)) pt_c) pt_a), ?_⟩
    simp [memberHarmConj, hm]

/-- Witness for C5 in the homogeneous-coordinate model: both
preconditions hold for the concrete triple and both call shapes return
the same harmonic conjugate. -/
theorem C5_harm_conj_member_free_witness :
    memberHarmConj pgPlane ((1 : Int), 1, 0) ((1 : Int), 0, 0) ((0 : Int), 1, 0) =
      harm_conj pgPlane ((1 : Int), 0, 0) ((0 : Int), 1, 0) ((1 : Int), 1, 0) :=
  (C5_harm_conj_member_free pgPlane ((1 : Int), 0, 0) ((0 : Int), 1, 0)
    ((1 : Int), 1, 0) (by decide) (by decide)).1

/-- C6: check_axiom returns no boolean (its embedded result type is
`Option Unit`, where `some ()` is a normal return and `none` a raised
assertion): it returns normally exactly when all five axiom checks
hold, and raises when any of them fails — it never returns `False`. -/
theorem C6_check_axiom {P L M : Type} (pp : PPlane P L M) (pt_p pt_q : P) (line_l : L) :
    check_axiom pp pt_p pt_q line_l = some () ↔
      (pp.beqP pt_p pt_p = true ∧
       pp.beqP pt_p pt_q = pp.beqP pt_q pt_p ∧
       pp.incidentP pt_p line_l = pp.incidentL line_l pt_p ∧
       pp.beqL (pp.circP pt_p pt_q) (pp.circP pt_q pt_p) = true ∧
       pp.incidentL (pp.circP pt_p pt_q) pt_p = true ∧
       pp.incidentL (pp.circP pt_p pt_q) pt_q = true) := by
  cases h1 : pp.beqP pt_p pt_p <;>
  cases h2 : pp.beqP pt_p pt_q <;>
  cases h2m : pp.beqP pt_q pt_p <;>
  cases h3 : pp.incidentP pt_p line_l <;>
  cases h3m : pp.incidentL line_l pt_p <;>
  cases h4 : pp.beqL (pp.circP pt_p pt_q) (pp.circP pt_q pt_p) <;>
  cases h5 : pp.incidentL (pp.circP pt_p pt_q) pt_p <;>
  cases h6 : pp.incidentL (pp.circP pt_p pt_q) pt_q <;>
  simp_all [ check_axiom]

/-- C3: for triangles passing the `tri_dual` preconditions,
`check_desargue` returns a boolean, namely whether the direct
perspectivity test and the dual perspectivity test agree (both true or
both false); in particular it returns `True` exactly when they
agree. -/
theorem C3_check_desargue {P L M : Type} (pp : PPlane P L M) (tri1 tri2 : P × P × P)
    (d1 d2 : L × L × L)
    (h1 : tri_dual pp tri1 = some d1) (h2 : tri_dual pp tri2 = some d2) :
    check_desargue pp tri1 tri2 =
      some (persp pp tri1 tri2 == persp (PPlane.dualize pp) d1 d2) ∧
    (check_desargue pp tri1 tri2 = some true ↔
      persp pp tri1 tri2 = persp (PPlane.dualize pp) d1 d2) := by
  have hd : check_desargue pp tri1 tri2 =
      some ((persp pp tri1 tri2 && persp (PPlane.dualize pp) d1 d2) ||
        (!persp pp tri1 tri2 && !persp (PPlane.dualize pp) d1 d2)) := by
    simp [check_desargue, h1, h2]
  constructor
  · rw [hd]
    cases hb1 : persp pp tri1 tri2 <;>
    cases hb2 : persp (PPlane.dualize pp) d1 d2 <;> rfl
  · rw [hd]
    cases hb1 : persp pp tri1 tri2 <;>
    cases hb2 : persp (PPlane.dualize pp) d1 d2 <;> simp

/-- Witness for C3 in the homogeneous-coordinate model, on the doctest
triangles: both perspectivity tests are true, so they agree and
`check_desargue` returns `some true`. -/
theorem C3_check_desargue_witness :
    check_desargue pgPlane
      (((0 : Int), 1, 0), ((0 : Int), 0, 1), ((1 : Int), 0, 0))
      (((0 : Int), 0, 1), ((0 : Int), 1, 0), ((1 : Int), 0, 0)) = some true :=
  (C3_check_desargue pgPlane
    (((0 : Int), 1, 0), ((0 : Int), 0, 1), ((1 : Int), 0, 0))
    (((0 : Int), 0, 1), ((0 : Int), 1, 0), ((1 : Int), 0, 0))
    (((0 : Int), 1, 0), ((0 : Int), 0, -1), ((1 : Int), 0, 0))
    (((0 : Int), 0, -1), ((0 : Int), 1, 0), ((-1 : Int), 0, 0))
    (by decide) (by decide)).2.mpr (by decide)

/-!
Claim C2: the involution property of harmonic conjugation.
-/

/-- C2 counterexample: `trivPlane` implements every operation of the
contract and satisfies every law the specification states for it (see
trivPlane_check_axiom); the triple `(true, true, true)` is
coincident, both applications of `harm_conj` pass their precondition,
yet the double harmonic conjugate is `false`, not the original point
`true` — also under the implementation's own equality.  The involution
property is not a consequence of the abstract contract alone. -/
theorem C2_counterexample :
    coincident trivPlane true true true = true ∧
    (harm_conj trivPlane true true true).bind
      (fun x => harm_conj trivPlane true true x) = some false ∧
    (harm_conj trivPlane true true true).bind
      (fun x => harm_conj trivPlane true true x) ≠ some true ∧
    trivPlane.beqP false true = false := by
  decide

/-- In the homogeneous-coordinate model, the free `coincident` test is
the vanishing of the triple product. -/
theorem pg_coincident_iff (pt_a pt_b pt_c : V3) :
    coincident pgPlane pt_a pt_b pt_c = true ↔
      dot3 (cross3 pt_a pt_b) pt_c = 0 := by
  simp [coincident, pgPlane]

/-- In the homogeneous-coordinate model, `harm_conj` on a coincident
triple returns the weighted combination of the two reference points. -/
theorem pg_harm_conj_eq (pt_a pt_b pt_c : V3)
    (h : dot3 (cross3 pt_a pt_b) pt_c = 0) :
    harm_conj pgPlane pt_a pt_b pt_c =
      some (add3
        (smul3 (dot3 (cross3 (cross3 pt_a pt_b) pt_c) pt_b) pt_a)
        (smul3 (dot3 (cross3 (cross3 pt_a pt_b) pt_c) pt_a) pt_b)) := by
  rw [harm_conj, if_pos ((pg_coincident_iff pt_a pt_b pt_c).mpr h)]
  rfl

/-- C2 amended: over the abstract contract the involution property can
fail (`C2_counterexample`), but in the homogeneous-coordinate model it
holds projectively: for every coincident triple, the double harmonic
conjugate is the scalar multiple of `pt_c` by the fourth power of the
norm of the join, hence the same projective point — equal to `pt_c`
under the model's own (projective) equality. -/
theorem C2_harm_conj_involution (pt_a pt_b pt_c : V3)
    (h : coincident pgPlane pt_a pt_b pt_c = true) :
    (harm_conj pgPlane pt_a pt_b pt_c).bind
      (fun x => harm_conj pgPlane pt_a pt_b x) =
      some (smul3 ((dot3 (cross3 pt_a pt_b) (cross3 pt_a pt_b)) ^ 2) pt_c) ∧
    pgPlane.beqP
      (smul3 ((dot3 (cross3 pt_a pt_b) (cross3 pt_a pt_b)) ^ 2) pt_c) pt_c = true := by
  have hc0 : dot3 (cross3 pt_a pt_b) pt_c = 0 := (pg_coincident_iff pt_a pt_b pt_c).mp h
  obtain ⟨a1, a2, a3⟩ := pt_a
  obtain ⟨b1, b2, b3⟩ := pt_b
  obtain ⟨c1, c2, c3⟩ := pt_c
  have hcE := hc0
  simp only [cross3, dot3] at hcE
  constructor
  · rw [pg_harm_conj_eq _ _ _ hc0, Option.some_bind,
      pg_harm_conj_eq _ _ _ (by simp only [cross3, dot3, add3, smul3]; ring)]
    refine congrArg some ?_
    simp only [cross3, dot3, add3, smul3, Prod.mk.injEq]
    refine ⟨?_, ?_, ?_⟩
    · linear_combination (-(((a2 * b3 - a3 * b2) ^ 2 + (a3 * b1 - a1 * b3) ^ 2 +
        (a1 * b2 - a2 * b1) ^ 2) * (a2 * b3 - a3 * b2))) * hcE
    · linear_combination (-(((a2 * b3 - a3 * b2) ^ 2 + (a3 * b1 - a1 * b3) ^ 2 +
        (a1 * b2 - a2 * b1) ^ 2) * (a3 * b1 - a1 * b3))) * hcE
    · linear_combination (-(((a2 * b3 - a3 * b2) ^ 2 + (a3 * b1 - a1 * b3) ^ 2 +
        (a1 * b2 - a2 * b1) ^ 2) * (a1 * b2 - a2 * b1))) * hcE
  · simp only [pgPlane, smul3, cross3, dot3, decide_eq_true_eq, Prod.mk.injEq]
    refine ⟨?_, ?_, ?_⟩ <;> ring

/-- Witness for the amended C2: a concrete coincident triple whose
double harmonic conjugate is 16 times the original point, identified
with it by the projective equality. -/
theorem C2_harm_conj_involution_witness :
    (harm_conj pgPlane ((2 : Int), 0, 0) ((0 : Int), 1, 0) ((2 : Int), 1, 0)).bind
      (fun x => harm_conj pgPlane ((2 : Int), 0, 0) ((0 : Int), 1, 0) x) =
      some ((32 : Int), 16, 0) ∧
    pgPlane.beqP ((32 : Int), 16, 0) ((2 : Int), 1, 0) = true := by
  constructor
  · rw [(C2_harm_conj_involution ((2 : Int), 0, 0) ((0 : Int), 1, 0)
      ((2 : Int), 1, 0) (by decide)).1]
    rfl
  · decide
